import Mathlib

/-!
Verification of the spotify_wrapped backend against its specification.

The development shallowly embeds the three source files of the repository:
`backend/utils/spotify.py` (token refresher and upstream request gateway),
`backend/routers/tokens.py` (credential upsert) and
`backend/routers/stats.py` (top-items simplifier and vibe aggregator).

Modelling conventions:
- UTC timestamps are integers (seconds).  The Python code normalises naive
  datetimes to UTC before comparing (`expires_at.replace(tzinfo=timezone.utc)`),
  which is the identity in this integer model.  `timedelta(minutes=5)` is 300.
- The two `datetime.now(timezone.utc)` calls inside `_refresh_spotify_token`
  (one before the refresh request, one after) are passed as two explicit
  parameters `now` and `nowAtUpdate`.
- Network effects are explicit: the response the authorization server or the
  catalog API would produce is an input, and the number of refresh POSTs the
  function issues is part of the output.
- Python `float` metrics are modelled as exact rationals; Python 3 `round`
  (round-half-to-even) is `pyRound` below.
- A raised `fastapi.HTTPException` is the error branch of `Except`.
-/

set_option autoImplicit false

/-- Detail payload of an HTTPException: either a plain string or an upstream
body that was successfully parsed as JSON (`e.response.json()`), kept here as
the raw body tagged with the fact that it parsed. -/
inductive Detail where
  | text (s : String)
  | jsonBody (raw : String)
deriving DecidableEq, Repr

/-- Model of `fastapi.HTTPException(status_code=..., detail=...)`. -/
structure HTTPException where
  status_code : Nat
  detail : Detail
deriving DecidableEq, Repr

deriving instance DecidableEq for Except

/-- Model of the `UserToken` ORM row used by `_refresh_spotify_token`:
`access_token`, `refresh_token` (a nullable column, `none` when absent) and
`expires_at` in UTC seconds. -/
structure UserToken where
  access_token : String
  refresh_token : Option String
  expires_at : Int
deriving DecidableEq, Repr

/-- The authorization server's answer to the refresh POST, as the code reads
it: `response.status_code`, `response.text`, and the `access_token` and
`expires_in` fields of `response.json()` (read only when the status is 200). -/
structure RefreshResponse where
  status_code : Nat
  text : String
  access_token : String
  expires_in : Int
deriving DecidableEq, Repr

/-- Python truthiness of `token_record.refresh_token`: `not x` is true for
`None` and for the empty string. -/
def falsyStr : Option String → Bool
  | none => true
  | some s => s == ""

/-- Result of one call to the token refresher: the returned record or the
raised HTTPException, the stored row after the call (the database state), and
how many refresh POSTs were sent to the authorization server. -/
structure RefreshOutcome where
  result : Except HTTPException UserToken
  db : Option UserToken
  networkCalls : Nat
deriving DecidableEq, Repr

/-- Shallow embedding of `_refresh_spotify_token` (backend/utils/spotify.py).
`record?` is the row selected for the user id (none when the SELECT finds
nothing), `now` is the clock read before the expiry check, `nowAtUpdate` the
clock read when storing the new expiry, and `resp` the authorization server's
response to the refresh POST (consulted only on the refresh path). -/
def refresh_spotify_token (record? : Option UserToken) (now nowAtUpdate : Int)
    (resp : RefreshResponse) : RefreshOutcome :=
  match record? with
  | none =>
      ⟨.error ⟨404, .text "Spotify token not found for user."⟩, none, 0⟩
  | some tr =>
      if now ≥ tr.expires_at - 300 then
        if falsyStr tr.refresh_token then
          ⟨.error ⟨400, .text "No refresh token available."⟩, some tr, 0⟩
        else if resp.status_code ≠ 200 then
          ⟨.error ⟨resp.status_code,
              .text ("Failed to refresh Spotify token: " ++ resp.text)⟩,
            some tr, 1⟩
        else
          let tr' : UserToken :=
            { access_token := resp.access_token
              refresh_token := tr.refresh_token
              expires_at := nowAtUpdate + resp.expires_in }
          ⟨.ok tr', some tr', 1⟩
      else
        ⟨.ok tr, some tr, 0⟩

/-- C1: a stored record whose expiry is more than 5 minutes after the current
UTC time is returned unchanged by the token refresher, with no network call
and no change to the stored row. -/
theorem refresh_fresh_token_no_network (tr : UserToken) (now nowAtUpdate : Int)
    (resp : RefreshResponse) (hfresh : 300 < tr.expires_at - now) :
    refresh_spotify_token (some tr) now nowAtUpdate resp = ⟨.ok tr, some tr, 0⟩ := by
  have hlt : ¬ (now ≥ tr.expires_at - 300) := by omega
  simp [refresh_spotify_token, hlt]

theorem refresh_fresh_token_no_network_witness :
    300 < (10000 : Int) - 0 ∧
      refresh_spotify_token (some ⟨"at", some "rt", 10000⟩) 0 0 ⟨200, "", "new", 3600⟩
        = ⟨.ok ⟨"at", some "rt", 10000⟩, some ⟨"at", some "rt", 10000⟩, 0⟩ :=
  ⟨by decide,
   refresh_fresh_token_no_network ⟨"at", some "rt", 10000⟩ 0 0 ⟨200, "", "new", 3600⟩
     (by decide)⟩

/-- C2: when the stored expiry is at or before now + 5 minutes and a refresh
token is present, the refresher issues exactly one refresh POST and, on a 200
response, stores the new access token and the new expiry
(`nowAtUpdate + expires_in`) together, leaving the refresh token unchanged;
the returned record equals the stored one. -/
theorem refresh_expiring_success_updates_atomically (tr : UserToken)
    (now nowAtUpdate : Int) (resp : RefreshResponse)
    (hexp : tr.expires_at ≤ now + 300)
    (hrt : falsyStr tr.refresh_token = false)
    (hok : resp.status_code = 200) :
    refresh_spotify_token (some tr) now nowAtUpdate resp =
      ⟨.ok { access_token := resp.access_token
             refresh_token := tr.refresh_token
             expires_at := nowAtUpdate + resp.expires_in },
        some { access_token := resp.access_token
               refresh_token := tr.refresh_token
               expires_at := nowAtUpdate + resp.expires_in },
        1⟩ := by
  have hge : now ≥ tr.expires_at - 300 := by omega
  simp [refresh_spotify_token, hge, hrt, hok]

theorem refresh_expiring_success_updates_atomically_witness :
    (100 : Int) ≤ 0 + 300 ∧ falsyStr (some "rt") = false ∧
      (⟨200, "", "new", 3600⟩ : RefreshResponse).status_code = 200 ∧
      refresh_spotify_token (some ⟨"old", some "rt", 100⟩) 0 50 ⟨200, "", "new", 3600⟩
        = ⟨.ok ⟨"new", some "rt", 3650⟩, some ⟨"new", some "rt", 3650⟩, 1⟩ :=
  ⟨by decide, by decide, by decide,
   refresh_expiring_success_updates_atomically ⟨"old", some "rt", 100⟩ 0 50
     ⟨200, "", "new", 3600⟩ (by decide) (by decide) (by decide)⟩

/-- C3: a non-200 answer from the authorization server makes the refresher
fail with an HTTPException carrying that status and the response body, after
exactly one refresh POST, and the stored row is exactly the one before the
call (no partial update). -/
theorem refresh_non200_no_partial_update (tr : UserToken)
    (now nowAtUpdate : Int) (resp : RefreshResponse)
    (hexp : tr.expires_at ≤ now + 300)
    (hrt : falsyStr tr.refresh_token = false)
    (hbad : resp.status_code ≠ 200) :
    refresh_spotify_token (some tr) now nowAtUpdate resp =
      ⟨.error ⟨resp.status_code,
          .text ("Failed to refresh Spotify token: " ++ resp.text)⟩,
        some tr, 1⟩ := by
  have hge : now ≥ tr.expires_at - 300 := by omega
  simp [refresh_spotify_token, hge, hrt, hbad]

theorem refresh_non200_no_partial_update_witness :
    (100 : Int) ≤ 0 + 300 ∧ falsyStr (some "rt") = false ∧
      (⟨503, "busy", "", 0⟩ : RefreshResponse).status_code ≠ 200 ∧
      refresh_spotify_token (some ⟨"old", some "rt", 100⟩) 0 50 ⟨503, "busy", "", 0⟩
        = ⟨.error ⟨503, .text "Failed to refresh Spotify token: busy"⟩,
            some ⟨"old", some "rt", 100⟩, 1⟩ :=
  ⟨by decide, by decide, by decide,
   refresh_non200_no_partial_update ⟨"old", some "rt", 100⟩ 0 50
     ⟨503, "busy", "", 0⟩ (by decide) (by decide) (by decide)⟩

/-- Two strings whose first characters differ are different. -/
theorem string_ne_of_head (a b : String) (c d : Char)
    (ha : a.data.head? = some c) (hb : b.data.head? = some d) (hcd : c ≠ d) :
    a ≠ b := by
  intro h
  rw [h, hb] at ha
  exact hcd (Option.some.inj ha).symm

/-- The upstream-failure detail text always starts with an F. -/
theorem refresh_fail_head (s : String) :
    ("Failed to refresh Spotify token: " ++ s).data.head? = some 'F' := by
  rcases s with ⟨d⟩
  rfl

/-- C4: the refresher fails with 404 not-found exactly on a missing record;
it fails with the 400 missing-refresh-token error exactly when a record
exists, a refresh is required (now at or past expiry minus 5 minutes) and the
stored refresh token is absent or empty; and a record with a missing refresh
token whose access token is still fresh does not fail. -/
theorem refresh_notfound_and_missing_refresh_token (record? : Option UserToken)
    (now nowAtUpdate : Int) (resp : RefreshResponse) :
    ((refresh_spotify_token record? now nowAtUpdate resp).result
        = .error ⟨404, .text "Spotify token not found for user."⟩ ↔ record? = none)
    ∧ ((refresh_spotify_token record? now nowAtUpdate resp).result
        = .error ⟨400, .text "No refresh token available."⟩
        ↔ ∃ tr, record? = some tr ∧ tr.expires_at - 300 ≤ now
            ∧ falsyStr tr.refresh_token = true)
    ∧ (∀ tr, record? = some tr → now < tr.expires_at - 300 →
        (refresh_spotify_token record? now nowAtUpdate resp).result = .ok tr) := by
  have hne1 : ∀ s : String, ("Failed to refresh Spotify token: " ++ s)
      ≠ "Spotify token not found for user." := fun s =>
    string_ne_of_head _ _ 'F' 'S' (refresh_fail_head s) rfl (by decide)
  have hne2 : ∀ s : String, ("Failed to refresh Spotify token: " ++ s)
      ≠ "No refresh token available." := fun s =>
    string_ne_of_head _ _ 'F' 'N' (refresh_fail_head s) rfl (by decide)
  rcases record? with _ | tr
  · refine ⟨by simp [refresh_spotify_token], by simp [refresh_spotify_token], ?_⟩
    intro tr h
    exact absurd h (by simp)
  · simp only [refresh_spotify_token]
    by_cases hexp : now ≥ tr.expires_at - 300
    · rw [if_pos hexp]
      by_cases hrt : falsyStr tr.refresh_token = true
      · rw [if_pos hrt]
        refine ⟨by simp, ?_, ?_⟩
        · dsimp only
          constructor
          · intro _
            exact ⟨tr, rfl, by omega, hrt⟩
          · intro _
            rfl
        · intro tr' htr'
          obtain rfl : tr = tr' := Option.some.inj htr'
          intro hfr
          exact absurd hfr (by omega)
      · rw [if_neg hrt]
        by_cases hbad : resp.status_code = 200
        · rw [if_neg (not_not_intro hbad)]
          refine ⟨by simp, ?_, ?_⟩
          · dsimp only
            constructor
            · intro h
              exact absurd h (by simp)
            · rintro ⟨tr', htr', -, hfalsy⟩
              obtain rfl : tr = tr' := Option.some.inj htr'
              exact absurd hfalsy hrt
          · intro tr' htr'
            obtain rfl : tr = tr' := Option.some.inj htr'
            intro hfr
            exact absurd hfr (by omega)
        · rw [if_pos hbad]
          refine ⟨?_, ?_, ?_⟩
          · dsimp only
            constructor
            · intro h
              simp only [Except.error.injEq, HTTPException.mk.injEq,
                Detail.text.injEq] at h
              exact absurd h.2 (hne1 resp.text)
            · intro h
              exact absurd h (by simp)
          · dsimp only
            constructor
            · intro h
              simp only [Except.error.injEq, HTTPException.mk.injEq,
                Detail.text.injEq] at h
              exact absurd h.2 (hne2 resp.text)
            · rintro ⟨tr', htr', -, hfalsy⟩
              obtain rfl : tr = tr' := Option.some.inj htr'
              exact absurd hfalsy hrt
          · intro tr' htr'
            obtain rfl : tr = tr' := Option.some.inj htr'
            intro hfr
            exact absurd hfr (by omega)
    · rw [if_neg hexp]
      refine ⟨by simp, ?_, ?_⟩
      · dsimp only
        constructor
        · intro h
          exact absurd h (by simp)
        · rintro ⟨tr', htr', hle, -⟩
          obtain rfl : tr = tr' := Option.some.inj htr'
          exact absurd hle (by omega)
      · intro tr' htr'
        obtain rfl : tr = tr' := Option.some.inj htr'
        intro _
        rfl

theorem refresh_notfound_and_missing_refresh_token_witness :
    ((refresh_spotify_token none 0 0 ⟨200, "", "", 0⟩).result
        = .error ⟨404, .text "Spotify token not found for user."⟩)
    ∧ ((refresh_spotify_token (some ⟨"at", none, 100⟩) 0 0 ⟨200, "", "", 0⟩).result
        = .error ⟨400, .text "No refresh token available."⟩)
    ∧ ((refresh_spotify_token (some ⟨"at", none, 10000⟩) 0 0 ⟨200, "", "", 0⟩).result
        = .ok ⟨"at", none, 10000⟩) :=
  ⟨(refresh_notfound_and_missing_refresh_token none 0 0 ⟨200, "", "", 0⟩).1.mpr rfl,
   (refresh_notfound_and_missing_refresh_token (some ⟨"at", none, 100⟩) 0 0
      ⟨200, "", "", 0⟩).2.1.mpr ⟨⟨"at", none, 100⟩, rfl, by decide, by decide⟩,
   (refresh_notfound_and_missing_refresh_token (some ⟨"at", none, 10000⟩) 0 0
      ⟨200, "", "", 0⟩).2.2 ⟨"at", none, 10000⟩ rfl (by decide)⟩

/-- Request body of `POST /api/tokens/spotify` (backend/routers/tokens.py). -/
structure SpotifyTokenPayload where
  access_token : String
  refresh_token : String
  expires_in : Int
deriving DecidableEq, Repr

/-- A row of the user_tokens table as written by `store_spotify_tokens`:
primary key `id` plus the three credential columns. -/
structure TokenRow where
  id : String
  access_token : String
  refresh_token : String
  expires_at : Int
deriving DecidableEq, Repr

/-- Shallow embedding of `store_spotify_tokens` (backend/routers/tokens.py):
an `INSERT ... ON CONFLICT (id) DO UPDATE` against the table, with
`expires_at = now + expires_in`.  The table is a list of rows; the primary
key makes at most one row per id exist, which the conflict clause preserves:
if a row with the caller's id exists it is replaced in place, otherwise a new
row is appended. -/
def store_spotify_tokens (db : List TokenRow) (user_id : String) (now : Int)
    (payload : SpotifyTokenPayload) : List TokenRow :=
  let expires_at := now + payload.expires_in
  if db.any (fun r => r.id == user_id) then
    db.map (fun r =>
      if r.id == user_id then
        { r with access_token := payload.access_token
                 refresh_token := payload.refresh_token
                 expires_at := expires_at }
      else r)
  else
    db ++ [⟨user_id, payload.access_token, payload.refresh_token, expires_at⟩]

/-- Helper: filtering by the key commutes with the conflict-update map,
because the update never changes a row's id. -/
theorem filter_key_map_update (uid : String) (f : TokenRow → TokenRow)
    (hf : ∀ r, (f r).id = r.id) (l : List TokenRow) :
    (l.map f).filter (fun r => r.id == uid)
      = (l.filter (fun r => r.id == uid)).map f := by
  induction l with
  | nil => rfl
  | cons r l ih =>
      by_cases h : r.id == uid
      · simp [List.filter_cons, List.map_cons, hf, h, ih]
      · simp [List.filter_cons, List.map_cons, hf, h, ih]

/-- Helper: one upsert leaves exactly one row for the caller's id, holding
the submitted values, provided the table held at most one such row before
(the primary-key invariant). -/
theorem store_spotify_tokens_filter (db : List TokenRow) (uid : String)
    (now : Int) (p : SpotifyTokenPayload)
    (h : (db.filter (fun r => r.id == uid)).length ≤ 1) :
    (store_spotify_tokens db uid now p).filter (fun r => r.id == uid)
      = [⟨uid, p.access_token, p.refresh_token, now + p.expires_in⟩] := by
  unfold store_spotify_tokens
  by_cases hany : db.any (fun r => r.id == uid)
  · rw [if_pos hany]
    rw [filter_key_map_update uid _ (fun r => by
      by_cases hr : r.id == uid
      · simp [hr]
      · simp [hr])]
    obtain ⟨r0, hmem, hr0⟩ := List.any_eq_true.mp hany
    have hmemf : r0 ∈ db.filter (fun r => r.id == uid) :=
      List.mem_filter.mpr ⟨hmem, hr0⟩
    have hlen1 : (db.filter (fun r => r.id == uid)).length = 1 := by
      have : 0 < (db.filter (fun r => r.id == uid)).length :=
        List.length_pos.mpr (List.ne_nil_of_mem hmemf)
      omega
    obtain ⟨a, ha⟩ := List.length_eq_one.mp hlen1
    rw [ha]
    have haid : a.id = uid := by
      have : a ∈ db.filter (fun r => r.id == uid) := by
        rw [ha]
        exact List.mem_singleton_self a
      have := (List.mem_filter.mp this).2
      exact eq_of_beq this
    simp only [List.map_cons, List.map_nil]
    rw [show (if a.id == uid then
        ({ a with access_token := p.access_token,
                  refresh_token := p.refresh_token,
                  expires_at := now + p.expires_in } : TokenRow)
      else a) = ⟨uid, p.access_token, p.refresh_token, now + p.expires_in⟩ from by
      rw [if_pos (by simp [haid])]
      cases a
      simp_all]
  · rw [if_neg hany]
    rw [List.filter_append]
    have hnil : db.filter (fun r => r.id == uid) = [] := by
      rw [List.filter_eq_nil_iff]
      intro r hr
      have := List.any_eq_false.mp (Bool.eq_false_iff.mpr hany) r hr
      simp_all
    rw [hnil]
    simp

/-- C5: submitting credentials twice for the same user id leaves exactly one
stored row for that id, holding the access token, refresh token and
`now + expires_in` expiry of the second submission, provided the table
satisfied the primary-key invariant (at most one row per id) beforehand:
the store upserts, it never fails and never creates a second row. -/
theorem store_spotify_tokens_upsert_idempotent (db : List TokenRow)
    (uid : String) (now1 now2 : Int) (p1 p2 : SpotifyTokenPayload)
    (h : (db.filter (fun r => r.id == uid)).length ≤ 1) :
    ((store_spotify_tokens (store_spotify_tokens db uid now1 p1) uid now2 p2).filter
        (fun r => r.id == uid))
      = [⟨uid, p2.access_token, p2.refresh_token, now2 + p2.expires_in⟩] := by
  apply store_spotify_tokens_filter
  rw [store_spotify_tokens_filter db uid now1 p1 h]
  simp

theorem store_spotify_tokens_upsert_idempotent_witness :
    (([] : List TokenRow).filter (fun r => r.id == "u")).length ≤ 1 ∧
      ((store_spotify_tokens (store_spotify_tokens [] "u" 10 ⟨"a1", "r1", 60⟩)
          "u" 20 ⟨"a2", "r2", 120⟩).filter (fun r => r.id == "u"))
        = [⟨"u", "a2", "r2", 140⟩] :=
  ⟨by decide,
   store_spotify_tokens_upsert_idempotent [] "u" 10 20 ⟨"a1", "r1", 60⟩
     ⟨"a2", "r2", 120⟩ (by decide)⟩

/-- Python 3 round: round-half-to-even on an exact rational. -/
def pyRound (q : ℚ) : ℤ :=
  let f := ⌊q⌋
  let r := q - f
  if r < 1/2 then f
  else if 1/2 < r then f + 1
  else if f % 2 = 0 then f else f + 1

/-- A top-track item as read by the vibe aggregator: only `track.get('id')`
is consulted (`none` when the key is absent or null). -/
structure VibeTrack where
  id : Option String
deriving DecidableEq, Repr

/-- An audio-feature object for one track; the four metrics read by the
aggregator, as exact rationals. -/
structure AudioFeature where
  danceability : ℚ
  energy : ℚ
  valence : ℚ
  acousticness : ℚ
deriving DecidableEq, Repr

/-- The vibe summary returned on the success path of `/api/stats/vibe`. -/
structure VibeSummary where
  time_range : String
  tracks_analyzed : Nat
  danceability : ℤ
  energy : ℤ
  positivity : ℤ
  acousticness : ℤ
deriving DecidableEq, Repr

/-- The two non-error outcomes of the vibe endpoint: the "no data" sentinel
message object, or the computed summary. -/
inductive VibeOut where
  | noData (message : String)
  | vibe (s : VibeSummary)
deriving DecidableEq, Repr

/-- The id extraction of the vibe aggregator:
`[track['id'] for track in items if track.get('id')]`.  Python truthiness
drops ids that are absent, null or the empty string. -/
def extractTrackIds (items : List VibeTrack) : List String :=
  items.filterMap (fun t =>
    match t.id with
    | some s => if s = "" then none else some s
    | none => none)

/-- Shallow embedding of `get_vibe_analysis` (backend/routers/stats.py)
after its two upstream fetches: `items` is `top_tracks_data.get('items', [])`
and `audio_features` is `audio_features_data.get('audio_features', [])`
(entries are `none` for JSON nulls).  The second fetch is only issued when
the id list is non-empty, so passing it as a parameter is faithful: it is
unread on the sentinel path. -/
def get_vibe_analysis (time_range : String) (items : List VibeTrack)
    (audio_features : List (Option AudioFeature)) :
    Except HTTPException VibeOut :=
  let track_ids := extractTrackIds items
  if track_ids.isEmpty then
    .ok (.noData "No top tracks found to analyze for this period.")
  else
    let features_list := audio_features.filterMap (fun f => f)
    if features_list.isEmpty then
      .error ⟨404, .text "Could not retrieve audio features for the tracks."⟩
    else
      let total : ℚ := features_list.length
      let avg_danceability := (features_list.map (fun f => f.danceability)).sum / total
      let avg_energy := (features_list.map (fun f => f.energy)).sum / total
      let avg_valence := (features_list.map (fun f => f.valence)).sum / total
      let avg_acousticness := (features_list.map (fun f => f.acousticness)).sum / total
      .ok (.vibe
        { time_range := time_range
          tracks_analyzed := features_list.length
          danceability := pyRound (avg_danceability * 100)
          energy := pyRound (avg_energy * 100)
          positivity := pyRound (avg_valence * 100)
          acousticness := pyRound (avg_acousticness * 100) })

/-- Helper: the sentinel is returned exactly when the id extraction is
empty. -/
theorem vibe_noData_iff (time_range : String) (items : List VibeTrack)
    (audio_features : List (Option AudioFeature)) :
    get_vibe_analysis time_range items audio_features
        = .ok (.noData "No top tracks found to analyze for this period.")
      ↔ extractTrackIds items = [] := by
  unfold get_vibe_analysis
  by_cases h : (extractTrackIds items).isEmpty
  · rw [if_pos h]
    simp [List.isEmpty_iff.mp h]
  · rw [if_neg h]
    have : extractTrackIds items ≠ [] := fun hnil => h (by simp [hnil])
    by_cases hf : (audio_features.filterMap (fun f => f)).isEmpty
    · rw [if_pos hf]
      simp [this]
    · rw [if_neg hf]
      simp [this]

/-- Helper: the 404 no-features error is raised exactly when ids were
collected but every feature entry was null. -/
theorem vibe_noFeatures_iff (time_range : String) (items : List VibeTrack)
    (audio_features : List (Option AudioFeature)) :
    get_vibe_analysis time_range items audio_features
        = .error ⟨404, .text "Could not retrieve audio features for the tracks."⟩
      ↔ (extractTrackIds items ≠ [] ∧ audio_features.filterMap (fun f => f) = []) := by
  unfold get_vibe_analysis
  by_cases h : (extractTrackIds items).isEmpty
  · rw [if_pos h]
    simp [List.isEmpty_iff.mp h]
  · rw [if_neg h]
    have hne : extractTrackIds items ≠ [] := fun hnil => h (by simp [hnil])
    by_cases hf : (audio_features.filterMap (fun f => f)).isEmpty
    · rw [if_pos hf]
      simp [hne, List.isEmpty_iff.mp hf]
    · rw [if_neg hf]
      have : audio_features.filterMap (fun f => f) ≠ [] :=
        fun hnil => hf (by simp [hnil])
      simp [hne, this]

/-- C6: the vibe aggregator returns the non-error "no data" sentinel exactly
when the top-tracks items yield zero track ids, and fails with the 404
no-features error exactly when at least one id was collected but the feature
list is empty after dropping nulls; the two outcomes are distinct. -/
theorem vibe_sentinel_vs_no_features (time_range : String)
    (items : List VibeTrack) (audio_features : List (Option AudioFeature)) :
    (get_vibe_analysis time_range items audio_features
        = .ok (.noData "No top tracks found to analyze for this period.")
      ↔ extractTrackIds items = [])
    ∧ (get_vibe_analysis time_range items audio_features
        = .error ⟨404, .text "Could not retrieve audio features for the tracks."⟩
      ↔ (extractTrackIds items ≠ [] ∧ audio_features.filterMap (fun f => f) = []))
    ∧ ((Except.ok (VibeOut.noData "No top tracks found to analyze for this period.")
          : Except HTTPException VibeOut)
        ≠ .error ⟨404, .text "Could not retrieve audio features for the tracks."⟩) :=
  ⟨vibe_noData_iff time_range items audio_features,
   vibe_noFeatures_iff time_range items audio_features,
   by simp⟩

theorem vibe_sentinel_vs_no_features_witness :
    (get_vibe_analysis "short_term" [] []
        = .ok (.noData "No top tracks found to analyze for this period."))
    ∧ (get_vibe_analysis "short_term" [⟨some "t1"⟩] [none]
        = .error ⟨404, .text "Could not retrieve audio features for the tracks."⟩) :=
  ⟨(vibe_sentinel_vs_no_features "short_term" [] []).1.mpr rfl,
   (vibe_sentinel_vs_no_features "short_term" [⟨some "t1"⟩] [none]).2.1.mpr
     ⟨by decide, rfl⟩⟩

/-- C7: on any non-empty list of surviving (non-null) audio features the vibe
aggregator reports `tracks_analyzed` equal to their count and, for each of
danceability, energy, valence (output as `positivity`) and acousticness, the
arithmetic mean of the metric scaled by 100 and rounded to the nearest
integer (Python `round`, half to even).  The concrete instance of the claim
is the witness theorem. -/
theorem vibe_mean_metrics (time_range : String) (items : List VibeTrack)
    (audio_features : List (Option AudioFeature))
    (hids : extractTrackIds items ≠ [])
    (hfeat : audio_features.filterMap (fun f => f) ≠ []) :
    get_vibe_analysis time_range items audio_features =
      .ok (.vibe
        { time_range := time_range
          tracks_analyzed := (audio_features.filterMap (fun f => f)).length
          danceability := pyRound
            (((audio_features.filterMap (fun f => f)).map
                (fun f => f.danceability)).sum
              / ((audio_features.filterMap (fun f => f)).length : ℚ) * 100)
          energy := pyRound
            (((audio_features.filterMap (fun f => f)).map (fun f => f.energy)).sum
              / ((audio_features.filterMap (fun f => f)).length : ℚ) * 100)
          positivity := pyRound
            (((audio_features.filterMap (fun f => f)).map (fun f => f.valence)).sum
              / ((audio_features.filterMap (fun f => f)).length : ℚ) * 100)
          acousticness := pyRound
            (((audio_features.filterMap (fun f => f)).map
                (fun f => f.acousticness)).sum
              / ((audio_features.filterMap (fun f => f)).length : ℚ) * 100) }) := by
  unfold get_vibe_analysis
  rw [if_neg (by simp [hids]), if_neg (by simp [hfeat])]

theorem vibe_mean_metrics_witness :
    extractTrackIds [⟨some "a"⟩, ⟨some "b"⟩, ⟨some "c"⟩] ≠ [] ∧
      ([some ⟨0.2, 0.5, 1, 0.1⟩, some ⟨0.4, 0.5, 0, 0.1⟩,
          some ⟨0.6, 0.5, 0.5, 0.1⟩] : List (Option AudioFeature)).filterMap
        (fun f => f) ≠ [] ∧
      get_vibe_analysis "medium_term" [⟨some "a"⟩, ⟨some "b"⟩, ⟨some "c"⟩]
          [some ⟨0.2, 0.5, 1, 0.1⟩, some ⟨0.4, 0.5, 0, 0.1⟩,
            some ⟨0.6, 0.5, 0.5, 0.1⟩]
        = .ok (.vibe ⟨"medium_term", 3, 40, 50, 50, 10⟩) :=
  ⟨by decide, by decide, by
    have h := vibe_mean_metrics "medium_term" [⟨some "a"⟩, ⟨some "b"⟩, ⟨some "c"⟩]
      [some ⟨0.2, 0.5, 1, 0.1⟩, some ⟨0.4, 0.5, 0, 0.1⟩, some ⟨0.6, 0.5, 0.5, 0.1⟩]
      (by decide) (by decide)
    rw [h]
    simp only [Except.ok.injEq, VibeOut.vibe.injEq, VibeSummary.mk.injEq,
      List.filterMap_cons, List.filterMap_nil, List.map_cons, List.map_nil,
      List.sum_cons, List.sum_nil, List.length_cons, List.length_nil]
    norm_num [pyRound]⟩

/-- Helper: every extracted track id is a non-empty string. -/
theorem extractTrackIds_no_empty (items : List VibeTrack) :
    ∀ s ∈ extractTrackIds items, s ≠ "" := by
  intro s hs
  obtain ⟨t, -, ht⟩ := List.mem_filterMap.mp hs
  rcases t with ⟨_ | id⟩
  · exact absurd ht (by simp)
  · by_cases hid : id = ""
    · simp [hid] at ht
    · simp [hid] at ht
      rw [← ht]
      exact hid

/-- Helper: the id extraction is empty exactly when every item's id is
absent, null or the empty string (Python falsy). -/
theorem extractTrackIds_eq_nil_iff (items : List VibeTrack) :
    extractTrackIds items = [] ↔
      ∀ t ∈ items, t.id = none ∨ t.id = some "" := by
  unfold extractTrackIds
  rw [List.filterMap_eq_nil_iff]
  constructor
  · intro h t ht
    have := h t ht
    rcases t with ⟨_ | id⟩
    · exact Or.inl rfl
    · by_cases hid : id = ""
      · exact Or.inr (by rw [hid])
      · simp [hid] at this
  · intro h t ht
    rcases h t ht with hid | hid
    · simp [hid]
    · simp [hid]

/-- C10 counterexample: an item whose id is present but the empty string is
dropped by the Python truthiness filter, so the "no data" sentinel is
returned even though a fetched item carries an id. -/
theorem vibe_sentinel_despite_empty_string_id :
    get_vibe_analysis "short_term" [⟨some ""⟩] []
        = .ok (.noData "No top tracks found to analyze for this period.")
      ∧ (VibeTrack.mk (some "")).id ≠ none := by
  constructor
  · decide
  · decide

/-- C10 amended: the aggregator drops every item whose id is absent, null or
empty (Python falsiness), so the comma-joined ids parameter never contains an
empty entry, and the "no data" sentinel is returned precisely when no fetched
item carries a non-empty id. -/
theorem vibe_id_truthiness (time_range : String) (items : List VibeTrack)
    (audio_features : List (Option AudioFeature)) :
    (∀ s ∈ extractTrackIds items, s ≠ "")
    ∧ (get_vibe_analysis time_range items audio_features
        = .ok (.noData "No top tracks found to analyze for this period.")
      ↔ ∀ t ∈ items, t.id = none ∨ t.id = some "") :=
  ⟨extractTrackIds_no_empty items,
   (vibe_noData_iff time_range items audio_features).trans
     (extractTrackIds_eq_nil_iff items)⟩

theorem vibe_id_truthiness_witness :
    ((VibeTrack.mk (some "")).id = none ∨ (VibeTrack.mk (some "")).id = some "")
    ∧ get_vibe_analysis "long_term" [⟨none⟩, ⟨some ""⟩] []
        = .ok (.noData "No top tracks found to analyze for this period.") :=
  ⟨Or.inr rfl,
   (vibe_id_truthiness "long_term" [⟨none⟩, ⟨some ""⟩] []).2.mpr (by decide)⟩

/-- A Python exception escaping the simplifier: `artist['name']` on a dict
without the key raises KeyError; `[...][0]` on an empty list raises
IndexError. -/
inductive PyErr where
  | keyError (k : String)
  | indexError
deriving DecidableEq, Repr

/-- An entry of a track's `artists` list; only `artist['name']` is read, and
it is a mandatory index (raises when absent). -/
structure ArtistObj where
  name : Option String
deriving DecidableEq, Repr

/-- An entry of an image list; `.get('url')` yields none when absent. -/
structure ImageObj where
  url : Option String
deriving DecidableEq, Repr

/-- The `album` sub-object of a track item; `album.get('images', [{}])`. -/
structure AlbumObj where
  images : Option (List ImageObj)
deriving DecidableEq, Repr

/-- A raw track item from `/me/top/tracks`, with every field optional as the
defensive `.get` chains assume. -/
structure TopTrackItem where
  id : Option String
  name : Option String
  artists : Option (List ArtistObj)
  album : Option AlbumObj
deriving DecidableEq, Repr

/-- A raw artist item from `/me/top/artists`. -/
structure TopArtistItem where
  id : Option String
  name : Option String
  images : Option (List ImageObj)
  genres : Option (List String)
deriving DecidableEq, Repr

/-- The cleaned track record built by `get_top_items` for `item_type =
'tracks'`. -/
structure CleanedTrack where
  id : Option String
  name : Option String
  artists : String
  image_url : Option String
deriving DecidableEq, Repr

/-- The cleaned artist record built by `get_top_items` for `item_type =
'artists'`. -/
structure CleanedArtist where
  id : Option String
  name : Option String
  image_url : Option String
  genres : List String
deriving DecidableEq, Repr

/-- The list comprehension `[artist['name'] for artist in ...]`: collects the
names in order, raising KeyError at the first artist without one. -/
def artistNames : List ArtistObj → Except PyErr (List String)
  | [] => .ok []
  | a :: rest =>
      match a.name with
      | none => .error (.keyError "name")
      | some n =>
          match artistNames rest with
          | .error e => .error e
          | .ok ns => .ok (n :: ns)

/-- Indexing `[...][0]`: the first element, or IndexError when empty. -/
def firstImage : List ImageObj → Except PyErr ImageObj
  | [] => .error .indexError
  | i :: _ => .ok i

/-- Shallow embedding of the per-item track branch of `get_top_items`
(backend/routers/stats.py): note that `item.get('album', {}).get('images',
[{}])` substitutes the one-empty-dict default only when the key is absent, so
a present-but-empty image list reaches `[0]` and raises. -/
def cleanTrack (item : TopTrackItem) : Except PyErr CleanedTrack :=
  match artistNames (item.artists.getD []) with
  | .error e => .error e
  | .ok names =>
      match firstImage ((item.album.getD ⟨none⟩).images.getD [⟨none⟩]) with
      | .error e => .error e
      | .ok first =>
          .ok { id := item.id
                name := item.name
                artists := String.intercalate ", " names
                image_url := first.url }

/-- Shallow embedding of the per-item artist branch of `get_top_items`. -/
def cleanArtist (item : TopArtistItem) : Except PyErr CleanedArtist :=
  match firstImage (item.images.getD [⟨none⟩]) with
  | .error e => .error e
  | .ok first =>
      .ok { id := item.id
            name := item.name
            image_url := first.url
            genres := item.genres.getD [] }

/-- The transformation loop of `get_top_items` over a tracks response: a
raised exception aborts the whole request. -/
def cleanTracks (items : List TopTrackItem) : Except PyErr (List CleanedTrack) :=
  items.mapM cleanTrack

/-- The transformation loop of `get_top_items` over an artists response. -/
def cleanArtists (items : List TopArtistItem) : Except PyErr (List CleanedArtist) :=
  items.mapM cleanArtist

/-- C8 counterexample: a track whose album carries a present-but-empty image
list makes the simplifier itself fail with an IndexError instead of yielding
a null image_url. -/
theorem cleanTrack_empty_image_list_fails :
    cleanTrack ⟨some "tid", some "tname", some [], some ⟨some []⟩⟩
      = .error .indexError := by
  decide

/-- Helper: when every artist has a name the comprehension succeeds with the
names in order. -/
theorem artistNames_ok (l : List ArtistObj) (h : ∀ a ∈ l, a.name ≠ none) :
    artistNames l = .ok (l.map (fun a => a.name.getD "")) := by
  induction l with
  | nil => rfl
  | cons a rest ih =>
      rcases ha : a.name with _ | n
      · exact absurd ha (h a (List.mem_cons_self a rest))
      · have ih' := ih (fun x hx => h x (List.mem_cons_of_mem a hx))
        simp [artistNames, ha, ih']

/-- Helper: the comprehension raises exactly when some listed artist lacks a
name. -/
theorem artistNames_fails_iff (l : List ArtistObj) :
    (artistNames l).isOk = false ↔ ∃ a ∈ l, a.name = none := by
  induction l with
  | nil => simp [artistNames, Except.isOk, Except.toBool]
  | cons a rest ih =>
      rcases ha : a.name with _ | n
      · simp only [artistNames, ha, Except.isOk, Except.toBool]
        constructor
        · intro _
          exact ⟨a, List.mem_cons_self a rest, ha⟩
        · intro _
          trivial
      · cases hr : artistNames rest with
        | error e =>
            simp only [artistNames, ha, hr, Except.isOk, Except.toBool]
            constructor
            · intro _
              obtain ⟨x, hx, hxn⟩ := ih.mp (by simp [hr, Except.isOk, Except.toBool])
              exact ⟨x, List.mem_cons_of_mem a hx, hxn⟩
            · intro _
              trivial
        | ok ns =>
            simp only [artistNames, ha, hr, Except.isOk, Except.toBool]
            constructor
            · intro hfalse
              exact absurd hfalse (by simp)
            · rintro ⟨x, hx, hxn⟩
              rcases List.mem_cons.mp hx with rfl | hx'
              · rw [hxn] at ha
                exact absurd ha (by simp)
              · have : (artistNames rest).isOk = false := ih.mpr ⟨x, hx', hxn⟩
                rw [hr] at this
                exact absurd this (by simp [Except.isOk, Except.toBool])

/-- Helper: the graceful success path of the track simplifier. -/
theorem cleanTrack_ok (item : TopTrackItem)
    (h1 : ∀ a ∈ item.artists.getD [], a.name ≠ none)
    (h2 : (item.album.getD ⟨none⟩).images ≠ some []) :
    cleanTrack item = .ok
      { id := item.id
        name := item.name
        artists := String.intercalate ", "
          ((item.artists.getD []).map (fun a => a.name.getD ""))
        image_url :=
          (((item.album.getD ⟨none⟩).images.getD [⟨none⟩]).headD ⟨none⟩).url } := by
  have h1' := artistNames_ok (item.artists.getD []) h1
  rcases himg : (item.album.getD ⟨none⟩).images.getD [⟨none⟩] with _ | ⟨first, rest⟩
  · exfalso
    rcases hi : (item.album.getD ⟨none⟩).images with _ | l
    · rw [hi] at himg
      simp at himg
    · rw [hi] at himg
      simp at himg
      exact h2 (by rw [hi, himg])
  · unfold cleanTrack
    rw [h1', himg]
    simp [firstImage]

/-- Helper: the track simplifier raises exactly on an unnamed artist entry or
a present-but-empty album image list. -/
theorem cleanTrack_fails_iff (item : TopTrackItem) :
    (cleanTrack item).isOk = false ↔
      (∃ a ∈ item.artists.getD [], a.name = none)
      ∨ (item.album.getD ⟨none⟩).images = some [] := by
  unfold cleanTrack
  cases hn : artistNames (item.artists.getD []) with
  | error e =>
      simp only [Except.isOk, Except.toBool]
      constructor
      · intro _
        exact Or.inl ((artistNames_fails_iff _).mp
          (by simp [hn, Except.isOk, Except.toBool]))
      · intro _
        trivial
  | ok ns =>
      have hnone : ¬ ∃ a ∈ item.artists.getD [], a.name = none := by
        rw [← artistNames_fails_iff]
        simp [hn, Except.isOk, Except.toBool]
      rcases himg : (item.album.getD ⟨none⟩).images with _ | l
      · simp [himg, firstImage, Except.isOk, Except.toBool, hnone]
      · cases l with
        | nil => simp [himg, firstImage, Except.isOk, Except.toBool]
        | cons i rest =>
            simp [himg, firstImage, Except.isOk, Except.toBool, hnone]

/-- Helper: the graceful success path of the artist simplifier. -/
theorem cleanArtist_ok (item : TopArtistItem)
    (h2 : item.images ≠ some []) :
    cleanArtist item = .ok
      { id := item.id
        name := item.name
        image_url := ((item.images.getD [⟨none⟩]).headD ⟨none⟩).url
        genres := item.genres.getD [] } := by
  rcases himg : item.images.getD [⟨none⟩] with _ | ⟨first, rest⟩
  · exfalso
    rcases hi : item.images with _ | l
    · rw [hi] at himg
      simp at himg
    · rw [hi] at himg
      simp at himg
      exact h2 (by rw [hi, himg])
  · unfold cleanArtist
    rw [himg]
    simp [firstImage]

/-- Helper: the artist simplifier raises exactly on a present-but-empty image
list. -/
theorem cleanArtist_fails_iff (item : TopArtistItem) :
    (cleanArtist item).isOk = false ↔ item.images = some [] := by
  unfold cleanArtist
  rcases himg : item.images with _ | l
  · simp [himg, firstImage, Except.isOk, Except.toBool]
  · cases l with
    | nil => simp [himg, firstImage, Except.isOk, Except.toBool]
    | cons i rest => simp [himg, firstImage, Except.isOk, Except.toBool]

/-- C8 amended: the simplifier degrades gracefully on absent fields (absent
id/name pass through as null, absent artist list gives `artists = ""`, an
absent image list gives a null image_url), but it is not total: it raises
KeyError on a track artist entry without a name and IndexError on an image
list that is present and empty, and those are its only failure modes. -/
theorem top_items_simplifier_graceful :
    (∀ item : TopTrackItem, (∀ a ∈ item.artists.getD [], a.name ≠ none) →
        (item.album.getD ⟨none⟩).images ≠ some [] →
        cleanTrack item = .ok
          { id := item.id
            name := item.name
            artists := String.intercalate ", "
              ((item.artists.getD []).map (fun a => a.name.getD ""))
            image_url :=
              (((item.album.getD ⟨none⟩).images.getD [⟨none⟩]).headD ⟨none⟩).url })
    ∧ (∀ item : TopTrackItem, (cleanTrack item).isOk = false ↔
        (∃ a ∈ item.artists.getD [], a.name = none)
        ∨ (item.album.getD ⟨none⟩).images = some [])
    ∧ (∀ item : TopArtistItem, item.images ≠ some [] →
        cleanArtist item = .ok
          { id := item.id
            name := item.name
            image_url := ((item.images.getD [⟨none⟩]).headD ⟨none⟩).url
            genres := item.genres.getD [] })
    ∧ (∀ item : TopArtistItem, (cleanArtist item).isOk = false ↔
        item.images = some []) :=
  ⟨cleanTrack_ok, cleanTrack_fails_iff, cleanArtist_ok, cleanArtist_fails_iff⟩

theorem top_items_simplifier_graceful_witness :
    (∀ a ∈ (TopTrackItem.mk none none (some []) none).artists.getD [],
        a.name ≠ none)
    ∧ ((TopTrackItem.mk none none (some []) none).album.getD ⟨none⟩).images
        ≠ some []
    ∧ cleanTrack ⟨none, none, some [], none⟩ = .ok ⟨none, none, "", none⟩
    ∧ (TopArtistItem.mk (some "aid") none none none).images ≠ some []
    ∧ cleanArtist ⟨some "aid", none, none, none⟩
        = .ok ⟨some "aid", none, none, []⟩ := by
  refine ⟨by decide, by decide, ?_, by decide, ?_⟩
  · have h := top_items_simplifier_graceful.1 ⟨none, none, some [], none⟩
      (by decide) (by decide)
    rw [h]
    decide
  · have h := top_items_simplifier_graceful.2.2.1 ⟨some "aid", none, none, none⟩
      (by decide)
    rw [h]
    decide

/-- What the catalog API call produced: an HTTP response (status, whether the
body parses as JSON, raw body text), or a transport failure with no response
object (`requests.exceptions.RequestException` without `e.response`). -/
inductive UpstreamOutcome where
  | response (status : Nat) (jsonParses : Bool) (body : String)
  | noResponse (errMsg : String)
deriving DecidableEq, Repr

/-- Rendering of a detail for string interpolation. -/
def detailStr : Detail → String
  | .text s => s
  | .jsonBody raw => raw

/-- Model of `str(e)` for an HTTPException interpolated into the wrapper
messages of the stats endpoints; the exact rendering is irrelevant to the
claims, only that the wrapper status is 500. -/
def excStr (e : HTTPException) : String :=
  toString e.status_code ++ ": " ++ detailStr e.detail

/-- Python `str.upper()` (used on the `method` argument), written as a
structural map over the character list so that it evaluates. -/
def pyUpper (s : String) : String :=
  ⟨s.data.map Char.toUpper⟩

/-- Shallow embedding of `make_spotify_request` (backend/utils/spotify.py):
check credentials configuration, refresh the token, dispatch on the method,
special-case 401, let `raise_for_status` turn any 4xx/5xx into an error
carrying the upstream status and the JSON-parsed body when parseable (raw
text otherwise), and normalise a response-less transport failure to 500. -/
def make_spotify_request (configOk : Bool) (record? : Option UserToken)
    (now nowAtUpdate : Int) (refreshResp : RefreshResponse)
    (method : String) (outcome : UpstreamOutcome) :
    Except HTTPException String :=
  if configOk = false then
    .error ⟨500, .text "Spotify API credentials not configured"⟩
  else
    match (refresh_spotify_token record? now nowAtUpdate refreshResp).result with
    | .error e => .error e
    | .ok _ =>
        if pyUpper method = "GET" ∨ pyUpper method = "POST" then
          match outcome with
          | .noResponse msg => .error ⟨500, .text msg⟩
          | .response status jsonParses body =>
              if status = 401 then
                .error ⟨401, .text "Invalid token"⟩
              else if 400 ≤ status then
                .error ⟨status, if jsonParses then .jsonBody body else .text body⟩
              else
                .ok body
        else
          .error ⟨405, .text ("Method " ++ method ++ " not allowed.")⟩

/-- Shallow embedding of the `/api/stats/recently-played` endpoint
(backend/routers/stats.py): its `except Exception` clause catches every
failure of `make_spotify_request`, including HTTPExceptions carrying an
upstream status, and re-raises them as status 500. -/
def get_recently_played (configOk : Bool) (record? : Option UserToken)
    (now nowAtUpdate : Int) (refreshResp : RefreshResponse)
    (outcome : UpstreamOutcome) : Except HTTPException String :=
  match make_spotify_request configOk record? now nowAtUpdate refreshResp
      "GET" outcome with
  | .ok d => .ok d
  | .error e =>
      .error ⟨500, .text ("Error fetching recently played tracks: " ++ excStr e)⟩

/-- C9 counterexample: a 429 from the catalog API at the recently-played
endpoint reaches the caller as a 500, not as 429: the endpoint's blanket
exception handler rewraps the pass-through error. -/
theorem recently_played_wraps_upstream_429_as_500 :
    get_recently_played true (some ⟨"tok", some "rt", 10000⟩) 0 0
        ⟨200, "", "", 0⟩ (.response 429 true "rate limit exceeded")
      = .error ⟨500, .text
          "Error fetching recently played tracks: 429: rate limit exceeded"⟩
    ∧ (500 : Nat) ≠ 429 := by
  constructor
  · decide
  · decide

/-- C9 amended: the gateway itself passes a 4xx/5xx catalog response through
with the original status and the JSON-parsed body when parseable (raw text
otherwise), except a 401, whose detail is replaced by "Invalid token"; a
transport failure with no response is normalised to 500; but the
recently-played endpoint (like the profile and single-track audio-features
endpoints, which share the same handler shape) wraps every one of these
errors into a 500. -/
theorem upstream_error_passthrough (tr : UserToken) (now nowAtUpdate : Int)
    (refreshResp : RefreshResponse) (hfresh : 300 < tr.expires_at - now) :
    (∀ status : Nat, ∀ body : String, 400 ≤ status → status ≠ 401 →
        make_spotify_request true (some tr) now nowAtUpdate refreshResp "GET"
            (.response status true body)
          = .error ⟨status, .jsonBody body⟩)
    ∧ (∀ status : Nat, ∀ body : String, 400 ≤ status → status ≠ 401 →
        make_spotify_request true (some tr) now nowAtUpdate refreshResp "GET"
            (.response status false body)
          = .error ⟨status, .text body⟩)
    ∧ (∀ jsonParses : Bool, ∀ body : String,
        make_spotify_request true (some tr) now nowAtUpdate refreshResp "GET"
            (.response 401 jsonParses body)
          = .error ⟨401, .text "Invalid token"⟩)
    ∧ (∀ msg : String,
        make_spotify_request true (some tr) now nowAtUpdate refreshResp "GET"
            (.noResponse msg)
          = .error ⟨500, .text msg⟩)
    ∧ (∀ outcome : UpstreamOutcome, ∀ e : HTTPException,
        make_spotify_request true (some tr) now nowAtUpdate refreshResp "GET"
            outcome
          = .error e →
        get_recently_played true (some tr) now nowAtUpdate refreshResp outcome
          = .error ⟨500,
              .text ("Error fetching recently played tracks: " ++ excStr e)⟩) := by
  have hlt : ¬ (now ≥ tr.expires_at - 300) := by omega
  have hres : (refresh_spotify_token (some tr) now nowAtUpdate refreshResp).result
      = .ok tr := by
    simp [refresh_spotify_token, hlt]
  have hm : pyUpper "GET" = "GET" ∨ pyUpper "GET" = "POST" :=
    Or.inl (by decide)
  refine ⟨?_, ?_, ?_, ?_, ?_⟩
  · intro status body h400 h401
    unfold make_spotify_request
    rw [if_neg (by decide), hres]
    dsimp only
    rw [if_pos hm]
    rw [if_neg h401, if_pos h400]
    simp
  · intro status body h400 h401
    unfold make_spotify_request
    rw [if_neg (by decide), hres]
    dsimp only
    rw [if_pos hm]
    rw [if_neg h401, if_pos h400]
    simp
  · intro jsonParses body
    unfold make_spotify_request
    rw [if_neg (by decide), hres]
    dsimp only
    rw [if_pos hm]
    rw [if_pos rfl]
  · intro msg
    unfold make_spotify_request
    rw [if_neg (by decide), hres]
    dsimp only
    rw [if_pos hm]
  · intro outcome e he
    unfold get_recently_played
    rw [he]

theorem upstream_error_passthrough_witness :
    300 < (10000 : Int) - 0 ∧
      make_spotify_request true (some ⟨"tok", some "rt", 10000⟩) 0 0
          ⟨200, "", "", 0⟩ "GET" (.response 503 false "upstream down")
        = .error ⟨503, .text "upstream down"⟩ :=
  ⟨by decide,
   (upstream_error_passthrough ⟨"tok", some "rt", 10000⟩ 0 0 ⟨200, "", "", 0⟩
      (by decide)).2.1 503 "upstream down" (by decide) (by decide)⟩
